import Mathlib

/-!
Shallow embedding of `src/ros/src/messtechnik_praktikum/scripts/helper.py`
(class `MoveGroupHelper`), the probing sequencer of this repository.

Modelling conventions:
* Python floats are modelled as exact rationals (`ℚ`); every numeric literal
  of the source (timeouts, scaling factors, offsets) is exactly representable.
* The external services are an environment `Env`:
  - `oracle k` is the list returned by the k-th call (over the whole run) to
    `get_known_object_names()` on the planning scene;
  - `currentOrientation link` is the orientation returned by
    `move_group.get_current_pose(link).pose.orientation`.
* The wall clock of `__wait_for_state_update` is modelled ideally: the loop
  body takes no time and `rospy.sleep(0.1)` advances the clock by exactly
  0.1 s, so the i-th membership poll happens at elapsed time i/10 seconds,
  exactly the fixed 0.1 s polling interval of the source.  `rospy.is_shutdown()`
  is modelled as always false (no external shutdown).
* Each operation returns, next to its Python return value and the successor
  state, the list of calls it issued to the external services (`SceneEvent`),
  so that ordering claims about the sequencer can be stated.  The
  `waitResult` event records the value a convergence wait returned at the
  moment it completed (the source discards most of these values).
* Mutable attributes of the helper that the claims touch are collected in
  `HelperState`; `queryCount` threads the scene-query oracle index.
-/

/-- `geometry_msgs.msg.Quaternion` in the `[x, y, z, w]` convention used by
`tf.transformations`, over exact rationals. -/
structure QuaternionMsg where
  x : ℚ
  y : ℚ
  z : ℚ
  w : ℚ
deriving DecidableEq

/-- `geometry_msgs.msg.Point` (a pose position), over exact rationals. -/
structure PointMsg where
  x : ℚ
  y : ℚ
  z : ℚ
deriving DecidableEq

/-- `geometry_msgs.msg.Pose`: position plus orientation. -/
structure PoseMsg where
  position : PointMsg
  orientation : QuaternionMsg
deriving DecidableEq

/-- `tf.transformations.quaternion_multiply(quaternion1, quaternion0)`,
transcribed componentwise in the `[x, y, z, w]` convention. -/
def quaternion_multiply (quaternion1 quaternion0 : QuaternionMsg) : QuaternionMsg :=
  ⟨quaternion1.x * quaternion0.w + quaternion1.y * quaternion0.z
      - quaternion1.z * quaternion0.y + quaternion1.w * quaternion0.x,
    -quaternion1.x * quaternion0.z + quaternion1.y * quaternion0.w
      + quaternion1.z * quaternion0.x + quaternion1.w * quaternion0.y,
    quaternion1.x * quaternion0.y - quaternion1.y * quaternion0.x
      + quaternion1.z * quaternion0.w + quaternion1.w * quaternion0.z,
    -quaternion1.x * quaternion0.x - quaternion1.y * quaternion0.y
      - quaternion1.z * quaternion0.z + quaternion1.w * quaternion0.w⟩

/-- Calls the helper issues to the external SceneService / MotionService. -/
inductive SceneEvent where
  | setPathConstraints
  | clearPathConstraints
  | addCylinder (name : String)
  | addMesh (name : String)
  | removeAttachedObject (name : String)
  | removeWorldObject (name : String)
  | sceneQuery (k : ℕ) (name : String)
  | waitResult (name : String) (expected : Bool) (result : Bool)
  | setMaxVelocityScaling (v : ℚ)
  | setMaxAccelScaling (a : ℚ)
deriving DecidableEq

/-- The external world: scene-query responses (indexed by a global query
counter) and the current link orientations reported by the move group. -/
structure Env where
  oracle : ℕ → List String
  currentOrientation : String → QuaternionMsg

/-- `self.cylinder_name` of the constructor. -/
def cylinder_name : String := "full_cylinder"

/-- `self.hollow_cylinder_name` of the constructor. -/
def hollow_cylinder_name : String := "hollow_cylinder"

/-- `moveit_msgs.msg.OrientationConstraint` (the fields the source sets). -/
structure OrientationConstraintMsg where
  link_name : String
  frame_id : String
  orientation : QuaternionMsg
  absolute_x_axis_tolerance : ℚ
  absolute_y_axis_tolerance : ℚ
  absolute_z_axis_tolerance : ℚ
  weight : ℚ
deriving DecidableEq

/-- `moveit_msgs.msg.PositionConstraint` (the fields the source sets: the
target point offset and the narrow bounding cylinder dimensions). -/
structure PositionConstraintMsg where
  link_name : String
  frame_id : String
  target_point_offset_z : ℚ
  region_height : ℚ
  region_radius : ℚ
deriving DecidableEq

/-- `moveit_msgs.msg.Constraints`: the constraint lists the source appends to. -/
structure ConstraintsMsg where
  orientation_constraints : List OrientationConstraintMsg
  position_constraints : List PositionConstraintMsg
deriving DecidableEq

/-- Mutable helper state the claims depend on: the `cartesian_constraints`
attribute, the move group's path-constraint / scaling state, and the global
scene-query counter threading the oracle. -/
structure HelperState where
  cartesian_constraints : Option ConstraintsMsg
  path_constraints : Option ConstraintsMsg
  velocity_scaling : ℚ
  accel_scaling : ℚ
  queryCount : ℕ
deriving DecidableEq

/-- The polling loop of `__wait_for_state_update`: at iteration `i` (elapsed
time `i/10` seconds, written `mkRat i 10` so that the guard is computable by
the kernel; `wait_elapsed_eq` below identifies the two) and global query index
`q`, while the elapsed time is below `timeout`, test whether membership of
`name` in the known-object set equals `expected` and return true on the first
match.  `fuel` bounds the recursion; callers pass enough fuel that it never
runs out before the time guard fails. -/
def wait_loop (oracle : ℕ → List String) (name : String) (expected : Bool)
    (timeout : ℚ) : ℕ → ℕ → ℕ → Bool × ℕ × List SceneEvent
  | 0, _, q => (false, q, [])
  | fuel+1, i, q =>
    if mkRat i 10 < timeout then
      if expected == (oracle q).contains name then
        (true, q + 1, [SceneEvent.sceneQuery q name])
      else
        let rest := wait_loop oracle name expected timeout fuel (i+1) (q+1)
        (rest.1, rest.2.1, SceneEvent.sceneQuery q name :: rest.2.2)
    else (false, q, [])

/-- Fuel sufficient for every poll of a wait with the given timeout: the loop
guard `i/10 < timeout` fails at the latest at iteration `⌈timeout * 10⌉₊`,
and `⌈timeout * 10⌉₊ < 10 * (⌈timeout⌉₊ + 1)`. -/
def pollFuel (timeout : ℚ) : ℕ := 10 * (⌈timeout⌉₊ + 1)

/-- `MoveGroupHelper.__wait_for_state_update(cylinder_name, cylinder_is_known,
timeout)` (default timeout 4 s at the call sites that omit it). -/
def wait_for_state_update (env : Env) (s : HelperState) (name : String)
    (expected : Bool) (timeout : ℚ) : Bool × HelperState × List SceneEvent :=
  let r := wait_loop env.oracle name expected timeout (pollFuel timeout) 0 s.queryCount
  (r.1, { s with queryCount := r.2.1 },
    r.2.2 ++ [SceneEvent.waitResult name expected r.1])

/-- `MoveGroupHelper.__add_cylinder(timeout=10)`: add the solid cylinder, then
wait for the scene to report it known; the wait's value is returned. -/
def add_cylinder (env : Env) (s : HelperState) : Bool × HelperState × List SceneEvent :=
  let w := wait_for_state_update env s cylinder_name true 10
  (w.1, w.2.1, SceneEvent.addCylinder cylinder_name :: w.2.2)

/-- `MoveGroupHelper.__remove_cylinder(timeout=4)`: wait until the solid
cylinder is known (result discarded), remove it (attached and world), then
wait until it is no longer known and return that wait's value. -/
def remove_cylinder (env : Env) (s : HelperState) : Bool × HelperState × List SceneEvent :=
  let w1 := wait_for_state_update env s cylinder_name true 4
  let w2 := wait_for_state_update env w1.2.1 cylinder_name false 4
  (w2.1, w2.2.1,
    w1.2.2
      ++ [SceneEvent.removeAttachedObject cylinder_name,
          SceneEvent.removeWorldObject cylinder_name]
      ++ w2.2.2)

/-- `MoveGroupHelper.__add_hollow_cylinder()`: add the hollow-cylinder mesh,
then wait (default 4 s) for it to be known; the wait's value is discarded and
the method returns nothing. -/
def add_hollow_cylinder (env : Env) (s : HelperState) : HelperState × List SceneEvent :=
  let w := wait_for_state_update env s hollow_cylinder_name true 4
  (w.2.1, SceneEvent.addMesh hollow_cylinder_name :: w.2.2)

/-- `MoveGroupHelper.__remove_hollow_cylinder()`: remove the hollow cylinder,
wait (default 4 s) for it to be unknown (value discarded), then wait for the
SOLID cylinder to be unknown and return that wait's value (as in the source,
which waits on `self.cylinder_name` in its final line). -/
def remove_hollow_cylinder (env : Env) (s : HelperState) : Bool × HelperState × List SceneEvent :=
  let w1 := wait_for_state_update env s hollow_cylinder_name false 4
  let w2 := wait_for_state_update env w1.2.1 cylinder_name false 4
  (w2.1, w2.2.1, SceneEvent.removeWorldObject hollow_cylinder_name :: (w1.2.2 ++ w2.2.2))

/-- `MoveGroupHelper.__get_relative_orientation(target_link_name,
reference_link_name)`: as in the source, the variable named
`reference_orientation` is read from `target_link_name` and the variable named
`target_orientation` from `reference_link_name`; the "inverse" negates only
the `w` component. -/
def get_relative_orientation (env : Env) (target_link_name reference_link_name : String) :
    QuaternionMsg :=
  let reference_orientation := env.currentOrientation target_link_name
  let reference_orientation_inverted : QuaternionMsg :=
    ⟨reference_orientation.x, reference_orientation.y, reference_orientation.z,
      -reference_orientation.w⟩
  let target_orientation := env.currentOrientation reference_link_name
  quaternion_multiply reference_orientation_inverted target_orientation

/-- `MoveGroupHelper.__get_orientation_constraints()`. -/
def get_orientation_constraints (env : Env) : OrientationConstraintMsg :=
  { link_name := "axis_6"
    frame_id := "axis_0"
    orientation := get_relative_orientation env "axis_6" "axis_0"
    absolute_x_axis_tolerance := 1/10
    absolute_y_axis_tolerance := 1/10
    absolute_z_axis_tolerance := 1/10
    weight := 1 }

/-- `MoveGroupHelper.__get_position_constraints()`: target point offset 0.5 in
z, bounding region a cylinder of height 1 and radius 0.01. -/
def get_position_constraints : PositionConstraintMsg :=
  { link_name := "axis_6"
    frame_id := "axis_0"
    target_point_offset_z := 1/2
    region_height := 1
    region_radius := 1/100 }

/-- The `Constraints` message built by `__apply_constraints`. -/
def probing_constraints (env : Env) : ConstraintsMsg :=
  { orientation_constraints := [get_orientation_constraints env]
    position_constraints := [get_position_constraints] }

/-- `MoveGroupHelper.__apply_constraints()`: build the constraints message,
pass it to `set_path_constraints`, and store it in `cartesian_constraints`. -/
def apply_constraints (env : Env) (s : HelperState) : HelperState × List SceneEvent :=
  ({ s with
      path_constraints := some (probing_constraints env)
      cartesian_constraints := some (probing_constraints env) },
    [SceneEvent.setPathConstraints])

/-- `MoveGroupHelper.__clear_constraints()`. -/
def clear_constraints (s : HelperState) : HelperState × List SceneEvent :=
  ({ s with cartesian_constraints := none, path_constraints := none },
    [SceneEvent.clearPathConstraints])

/-- `MoveGroupHelper.enable_probing()`: apply constraints, add the hollow
cylinder, remove the solid cylinder (both scene results discarded), then set
velocity scaling 0.01 and acceleration scaling 0.1. -/
def enable_probing (env : Env) (s : HelperState) : HelperState × List SceneEvent :=
  let a := apply_constraints env s
  let b := add_hollow_cylinder env a.1
  let c := remove_cylinder env b.1
  ({ c.2.1 with velocity_scaling := 1/100, accel_scaling := 1/10 },
    a.2 ++ b.2 ++ c.2.2
      ++ [SceneEvent.setMaxVelocityScaling (1/100), SceneEvent.setMaxAccelScaling (1/10)])

/-- `MoveGroupHelper.disable_probing()`: re-add the solid cylinder, remove the
hollow one (results discarded), clear constraints, then set velocity scaling
0.8 and acceleration scaling 1. -/
def disable_probing (env : Env) (s : HelperState) : HelperState × List SceneEvent :=
  let a := add_cylinder env s
  let b := remove_hollow_cylinder env a.2.1
  let c := clear_constraints b.2.1
  ({ c.1 with velocity_scaling := 4/5, accel_scaling := 1 },
    a.2.2 ++ b.2.2 ++ c.2
      ++ [SceneEvent.setMaxVelocityScaling (4/5), SceneEvent.setMaxAccelScaling 1])

/-- The Cartesian planning request `plan_probing` hands to
`compute_cartesian_path`: the waypoint list, the 0.01 end-effector step, the
0.0 jump threshold, and the constraints taken from `cartesian_constraints`.
The `(plan, fraction)` pair itself is produced by the external MotionService
from this request. -/
structure CartesianPathRequest where
  waypoints : List PoseMsg
  eef_step : ℚ
  jump_threshold : ℚ
  path_constraints : Option ConstraintsMsg
deriving DecidableEq

/-- `MoveGroupHelper.plan_probing(z)`: copy the current pose, offset its z by
`z`, append the single waypoint, and request a Cartesian path under
`self.cartesian_constraints`. -/
def plan_probing (s : HelperState) (current_pose : PoseMsg) (z : ℚ) : CartesianPathRequest :=
  let wpose : PoseMsg :=
    { current_pose with
        position := { current_pose.position with z := current_pose.position.z + z } }
  { waypoints := [wpose]
    eef_step := 1/100
    jump_threshold := 0
    path_constraints := s.cartesian_constraints }

/-- Modelled from the spec: the base-class (`helpy`) part of the constructor
state is not under `src/` (only `MoveGroupHelper.__init__`'s own body is).
Per the spec the sequencer starts in Idle with no active constraint set and
the default scaling (80 % velocity, 100 % acceleration); the scene-query
counter starts at 0. -/
def initial_base_state : HelperState :=
  { cartesian_constraints := none
    path_constraints := none
    velocity_scaling := 4/5
    accel_scaling := 1
    queryCount := 0 }

/-- `MoveGroupHelper.__init__`: after the base-class setup the constructor
adds the solid cylinder to the scene (`__add_cylinder`, 10 s timeout). The
5-second startup sleep and the saved start pose do not affect the modelled
state. -/
def init_helper (env : Env) : Bool × HelperState × List SceneEvent :=
  add_cylinder env initial_base_state

/-- True for the scene-mutating service calls (adds and removes). -/
def isSceneMutation : SceneEvent → Bool
  | SceneEvent.addCylinder _ => true
  | SceneEvent.addMesh _ => true
  | SceneEvent.removeAttachedObject _ => true
  | SceneEvent.removeWorldObject _ => true
  | _ => false

/-- True for the membership polls of a convergence wait. -/
def isSceneQuery : SceneEvent → Bool
  | SceneEvent.sceneQuery _ _ => true
  | _ => false

/-- Number of membership checks recorded in an event list. -/
def numChecks (evs : List SceneEvent) : ℕ := (evs.filter isSceneQuery).length

/-- A scene that always reports exactly the solid cylinder (the hollow mesh
never converges). -/
def envSolidOnly : Env := ⟨fun _ => [cylinder_name], fun _ => ⟨0, 0, 0, 1⟩⟩

/-- A scene that never reports any object, with identity link orientations. -/
def envEmpty : Env := ⟨fun _ => [], fun _ => ⟨0, 0, 0, 1⟩⟩

/-- A scripted scene in which every convergence wait of two back-to-back
`enable_probing` calls, or of one `enable_probing` / `disable_probing` pair,
succeeds at its first poll (queries 0,3 report the hollow cylinder or the
solid cylinder as the respective wait expects, and so on). -/
def envFast : Env :=
  ⟨fun k =>
    if k = 0 then [hollow_cylinder_name]
    else if k = 1 then [cylinder_name]
    else if k = 2 then []
    else if k = 3 then [hollow_cylinder_name, cylinder_name]
    else if k = 4 then [cylinder_name]
    else [],
  fun _ => ⟨0, 0, 0, 1⟩⟩

/-- A concrete end-effector pose at height z = 0.30 m. -/
def demoPose : PoseMsg := ⟨⟨1/4, 0, 3/10⟩, ⟨0, 0, 0, 1⟩⟩

/-- The elapsed time `mkRat i 10` of the i-th poll is `i/10` seconds. -/
theorem wait_elapsed_eq (i : ℕ) : (mkRat i 10 : ℚ) = (i : ℚ) / 10 := by
  rw [Rat.mkRat_eq_div]
  push_cast
  ring

/-- The i-th poll happens before the timeout iff `i < ⌈timeout * 10⌉₊`. -/
theorem poll_guard_iff (i : ℕ) (t : ℚ) : (i : ℚ) / 10 < t ↔ i < ⌈t * 10⌉₊ := by
  rw [div_lt_iff₀ (by norm_num : (0:ℚ) < 10)]
  exact Nat.lt_ceil.symm

/-- `pollFuel` dominates the index at which the time guard fails. -/
theorem ceil_le_pollFuel (t : ℚ) : ⌈t * 10⌉₊ ≤ pollFuel t := by
  have h1 : t ≤ (⌈t⌉₊ : ℚ) := Nat.le_ceil t
  have h2 : t * 10 ≤ ((10 * (⌈t⌉₊ + 1) : ℕ) : ℚ) := by
    push_cast
    nlinarith
  exact Nat.ceil_le.mpr h2

/-- If the time guard already fails, the loop returns false at once (also with
zero fuel). -/
theorem wait_loop_stop (oracle : ℕ → List String) (name : String) (expected : Bool)
    (t : ℚ) (fuel i q : ℕ) (h : ¬ mkRat i 10 < t) :
    wait_loop oracle name expected t fuel i q = (false, q, []) := by
  cases fuel with
  | zero => rfl
  | succ fuel => rw [wait_loop, if_neg h]

/-- Characterization of the polling loop: with enough fuel it returns true iff
some poll before the timeout observes the expected membership. -/
theorem wait_loop_true_iff (oracle : ℕ → List String) (name : String) (expected : Bool)
    (t : ℚ) :
    ∀ fuel i q, ⌈t * 10⌉₊ ≤ i + fuel →
      ((wait_loop oracle name expected t fuel i q).1 = true ↔
        ∃ j : ℕ, i ≤ j ∧ (j : ℚ) / 10 < t
          ∧ ((oracle (q + (j - i))).contains name = expected)) := by
  intro fuel
  induction fuel with
  | zero =>
    intro i q hle
    simp only [wait_loop]
    constructor
    · intro h
      exact absurd h (by simp)
    · rintro ⟨j, hij, hjt, -⟩
      have hj := (poll_guard_iff j t).mp hjt
      exfalso
      omega
  | succ fuel ih =>
    intro i q hle
    rw [wait_loop]
    by_cases hg : (i : ℚ) / 10 < t
    · rw [if_pos (by rw [wait_elapsed_eq]; exact hg)]
      by_cases hmatch : expected = (oracle q).contains name
      · rw [if_pos (beq_iff_eq.mpr hmatch)]
        refine iff_of_true rfl ⟨i, le_rfl, hg, ?_⟩
        simp only [Nat.sub_self, Nat.add_zero]
        exact hmatch.symm
      · rw [if_neg (fun hb => hmatch (beq_iff_eq.mp hb))]
        show (wait_loop oracle name expected t fuel (i+1) (q+1)).1 = true ↔ _
        rw [ih (i+1) (q+1) (by omega)]
        constructor
        · rintro ⟨j, hij, hjt, hc⟩
          refine ⟨j, by omega, hjt, ?_⟩
          have he : q + 1 + (j - (i + 1)) = q + (j - i) := by omega
          rwa [he] at hc
        · rintro ⟨j, hij, hjt, hc⟩
          rcases Nat.lt_or_ge i j with hlt | hge
          · refine ⟨j, by omega, hjt, ?_⟩
            have he : q + 1 + (j - (i + 1)) = q + (j - i) := by omega
            rwa [he]
          · have hji : j = i := by omega
            subst hji
            exfalso
            apply hmatch
            have hc' := hc
            simp only [Nat.sub_self, Nat.add_zero] at hc'
            exact hc'.symm
    · rw [if_neg (by rw [wait_elapsed_eq]; exact hg)]
      constructor
      · intro h
        exact absurd h (by simp)
      · rintro ⟨j, hij, hjt, -⟩
        exfalso
        apply hg
        have hcast : (i : ℚ) ≤ (j : ℚ) := by exact_mod_cast hij
        linarith

/-- `__wait_for_state_update` returns true iff some poll strictly before the
timeout observes the expected membership state (polls are 0.1 s apart, the
j-th poll at elapsed time j/10 s, reading the oracle at the current global
query index plus j). -/
theorem wait_for_state_update_true_iff (env : Env) (s : HelperState) (name : String)
    (expected : Bool) (t : ℚ) :
    (wait_for_state_update env s name expected t).1 = true ↔
      ∃ j : ℕ, (j : ℚ) / 10 < t
        ∧ ((env.oracle (s.queryCount + j)).contains name = expected) := by
  have h := wait_loop_true_iff env.oracle name expected t (pollFuel t) 0 s.queryCount
    (by have := ceil_le_pollFuel t; omega)
  show (wait_loop env.oracle name expected t (pollFuel t) 0 s.queryCount).1 = true ↔ _
  rw [h]
  constructor
  · rintro ⟨j, -, hjt, hc⟩
    exact ⟨j, hjt, by simpa using hc⟩
  · rintro ⟨j, hjt, hc⟩
    exact ⟨j, Nat.zero_le j, hjt, by simpa using hc⟩

/-- Every event the polling loop emits is a membership poll. -/
theorem wait_loop_trace_queries (oracle : ℕ → List String) (name : String) (expected : Bool)
    (t : ℚ) :
    ∀ fuel i q, ∀ e ∈ (wait_loop oracle name expected t fuel i q).2.2,
      ∃ k n, e = SceneEvent.sceneQuery k n := by
  intro fuel
  induction fuel with
  | zero =>
    intro i q e he
    simp [wait_loop] at he
  | succ fuel ih =>
    intro i q e he
    rw [wait_loop] at he
    by_cases hg : mkRat i 10 < t
    · rw [if_pos hg] at he
      by_cases hmatch : expected = (oracle q).contains name
      · rw [if_pos (beq_iff_eq.mpr hmatch)] at he
        simp at he
        exact ⟨q, name, he⟩
      · rw [if_neg (fun hb => hmatch (beq_iff_eq.mp hb))] at he
        have he' : e ∈ SceneEvent.sceneQuery q name ::
            (wait_loop oracle name expected t fuel (i+1) (q+1)).2.2 := he
        rcases List.mem_cons.mp he' with h | h
        · exact ⟨q, name, h⟩
        · exact ih (i+1) (q+1) e h
    · rw [if_neg hg] at he
      simp at he

/-- The event trace of a convergence wait: its polls followed by the recorded
result. -/
theorem wait_trace_eq (env : Env) (s : HelperState) (name : String) (expected : Bool)
    (t : ℚ) :
    (wait_for_state_update env s name expected t).2.2 =
      (wait_loop env.oracle name expected t (pollFuel t) 0 s.queryCount).2.2
        ++ [SceneEvent.waitResult name expected
              (wait_loop env.oracle name expected t (pollFuel t) 0 s.queryCount).1] := rfl

/-- A convergence wait never mutates the scene: its trace holds no add or
remove call. -/
theorem wait_trace_no_mutation (env : Env) (s : HelperState) (name : String)
    (expected : Bool) (t : ℚ) :
    ∀ e ∈ (wait_for_state_update env s name expected t).2.2, isSceneMutation e = false := by
  intro e he
  rw [wait_trace_eq] at he
  rcases List.mem_append.mp he with h | h
  · obtain ⟨k, n, rfl⟩ := wait_loop_trace_queries env.oracle name expected t _ _ _ e h
    rfl
  · simp at h
    subst h
    rfl

/-- C1 (amended): for every timeout t > 0 the scene-convergence wait
`__wait_for_state_update` returns true iff the polled membership of the named
object in the known-object set equals the expected flag at some poll within t
seconds (the j-th poll at elapsed j/10 s); for t = 0, however, the loop guard
fails before the first poll, so the wait performs no membership check at all
and returns false. -/
theorem wait_for_scene_state_spec (env : Env) (s : HelperState) (name : String)
    (expected : Bool) (t : ℚ) :
    (0 < t →
      ((wait_for_state_update env s name expected t).1 = true ↔
        ∃ j : ℕ, (j : ℚ) / 10 < t
          ∧ ((env.oracle (s.queryCount + j)).contains name = expected)))
    ∧ (t = 0 →
        (wait_for_state_update env s name expected t).1 = false
        ∧ numChecks (wait_for_state_update env s name expected t).2.2 = 0) := by
  constructor
  · intro _
    exact wait_for_state_update_true_iff env s name expected t
  · intro ht
    subst ht
    have hl := wait_loop_stop env.oracle name expected 0 (pollFuel 0) 0 s.queryCount
      (by rw [wait_elapsed_eq]; norm_num)
    constructor
    · show (wait_loop env.oracle name expected 0 (pollFuel 0) 0 s.queryCount).1 = false
      rw [hl]
    · show numChecks
          ((wait_loop env.oracle name expected 0 (pollFuel 0) 0 s.queryCount).2.2
            ++ [SceneEvent.waitResult name expected
                  (wait_loop env.oracle name expected 0 (pollFuel 0) 0 s.queryCount).1]) = 0
      rw [hl]
      rfl

/-- Witness for `wait_for_scene_state_spec`: at timeout 1 with a scene that
always reports the solid cylinder, the hypothesis 0 < 1 holds and the wait
returns true (the state is observed at the first poll). -/
theorem wait_for_scene_state_spec_witness :
    (0:ℚ) < 1
    ∧ (wait_for_state_update envSolidOnly initial_base_state cylinder_name true 1).1 = true := by
  refine ⟨by norm_num, ?_⟩
  exact ((wait_for_scene_state_spec envSolidOnly initial_base_state cylinder_name true 1).1
    (by norm_num)).mpr ⟨0, by norm_num, by decide⟩

/-- C1 counterexample: at timeout 0, even with the expected state already
holding at the scene, the wait performs zero membership checks and returns
false, while the claim requires at least one check before returning. -/
theorem wait_zero_timeout_no_check :
    (wait_for_state_update envSolidOnly initial_base_state cylinder_name true 0).1 = false
    ∧ numChecks
        (wait_for_state_update envSolidOnly initial_base_state cylinder_name true 0).2.2 = 0 := by
  decide

/-- C2 (amended): when the current orientations of both links are the identity
quaternion (0,0,0,1), `__get_relative_orientation` returns (0,0,0,−1) — the
negation of the identity quaternion (the same rotation, but not the
componentwise identity), because the source inverts a quaternion by negating
only its w component. -/
theorem get_relative_orientation_identity (env : Env) (target_link reference_link : String)
    (ht : env.currentOrientation target_link = ⟨0, 0, 0, 1⟩)
    (hr : env.currentOrientation reference_link = ⟨0, 0, 0, 1⟩) :
    get_relative_orientation env target_link reference_link = ⟨0, 0, 0, -1⟩ := by
  simp [get_relative_orientation, quaternion_multiply, ht, hr]

/-- Witness for `get_relative_orientation_identity` on a concrete environment
whose link orientations are all the identity. -/
theorem get_relative_orientation_identity_witness :
    envEmpty.currentOrientation "axis_6" = ⟨0, 0, 0, 1⟩
    ∧ get_relative_orientation envEmpty "axis_6" "axis_0" = ⟨0, 0, 0, -1⟩ :=
  ⟨rfl, get_relative_orientation_identity envEmpty "axis_6" "axis_0" rfl rfl⟩

/-- C2 counterexample: with both current orientations the identity quaternion,
the computed relative orientation is not (0,0,0,1): its w component is −1. -/
theorem get_relative_orientation_identity_counterexample :
    get_relative_orientation envEmpty "axis_6" "axis_0" ≠ ⟨0, 0, 0, 1⟩ := by
  intro h
  have hw := congrArg QuaternionMsg.w h
  simp [get_relative_orientation, quaternion_multiply, envEmpty] at hw
  exact absurd hw (by norm_num)

/-- C5 (amended): for every starting configuration and every scene behaviour,
`enable_probing` followed by `disable_probing` ends with the fixed default
scaling (velocity 0.8, acceleration 1.0) and a cleared constraint state; this
is a round trip exactly when the pre-enable configuration already carried
those defaults and no active constraint set, because `disable_probing` writes
the constants rather than saved pre-enable values. -/
theorem enable_disable_restores_defaults (env : Env) (s : HelperState) :
    (disable_probing env (enable_probing env s).1).1.velocity_scaling = 4/5
    ∧ (disable_probing env (enable_probing env s).1).1.accel_scaling = 1
    ∧ (disable_probing env (enable_probing env s).1).1.cartesian_constraints = none
    ∧ (disable_probing env (enable_probing env s).1).1.path_constraints = none :=
  ⟨rfl, rfl, rfl, rfl⟩

/-- C5 counterexample: starting with velocity scaling 0.5, enable followed by
disable ends at velocity scaling 0.8 — not the pre-enable value, so the pair
is not a round trip on the scaling state for every starting configuration. -/
theorem enable_disable_not_roundtrip :
    (disable_probing envFast (enable_probing envFast
        { initial_base_state with velocity_scaling := 1/2 }).1).1.velocity_scaling
      ≠ ({ initial_base_state with velocity_scaling := 1/2 } : HelperState).velocity_scaling := by
  show (4/5 : ℚ) ≠ 1/2
  norm_num

/-- C6 (confirmed): `plan_probing(-0.06)` from a current pose with z = 0.30
produces a waypoint list with exactly one pose, whose z is 0.24 and whose x
and y equal those of the current pose. -/
theorem plan_probing_depth_example (s : HelperState) (p : PoseMsg)
    (h : p.position.z = 3/10) :
    (plan_probing s p (-(6/100))).waypoints.length = 1
    ∧ ∀ w ∈ (plan_probing s p (-(6/100))).waypoints,
        w.position.z = 24/100
        ∧ w.position.x = p.position.x
        ∧ w.position.y = p.position.y := by
  refine ⟨rfl, ?_⟩
  intro w hw
  simp [plan_probing] at hw
  subst hw
  refine ⟨?_, rfl, rfl⟩
  show p.position.z + -(6/100) = 24/100
  rw [h]
  norm_num

/-- Witness for `plan_probing_depth_example` at the concrete pose
(0.25, 0, 0.30). -/
theorem plan_probing_depth_example_witness :
    demoPose.position.z = 3/10
    ∧ (plan_probing initial_base_state demoPose (-(6/100))).waypoints.length = 1 :=
  ⟨rfl, (plan_probing_depth_example initial_base_state demoPose rfl).1⟩

/-- C7 (amended): `plan_probing` always offsets the CURRENT pose, so a first
call with displacement z targets p.z + z; a second call with −z targets the
original p.z only when the pose moved by z between the calls (i.e. the first
plan was executed); with the current pose unchanged between the calls the
second target is p.z − z instead. -/
theorem plan_probing_reversal (s s2 : HelperState) (p : PoseMsg) (z : ℚ) :
    (∀ w ∈ (plan_probing s p z).waypoints, w.position.z = p.position.z + z)
    ∧ (∀ w ∈ (plan_probing s2 p (-z)).waypoints, w.position.z = p.position.z - z)
    ∧ (∀ w ∈ (plan_probing s2
          { p with position := { p.position with z := p.position.z + z } } (-z)).waypoints,
        w.position.z = p.position.z) := by
  refine ⟨?_, ?_, ?_⟩ <;> intro w hw <;> simp [plan_probing] at hw <;> subst hw
  · rfl
  · show p.position.z + -z = p.position.z - z
    ring
  · rfl

/-- C7 counterexample: with the current pose unchanged between the calls
(z stays 0.30), the second call `plan_probing(-0.06)` targets 0.30 − 0.06 =
0.24, which differs from the original 0.30 the claim requires. -/
theorem plan_probing_reversal_counterexample :
    ((plan_probing initial_base_state demoPose (-(6/100))).waypoints.map
        fun w => w.position.z) = [demoPose.position.z + -(6/100)]
    ∧ demoPose.position.z + -(6/100) ≠ demoPose.position.z := by
  constructor
  · rfl
  · show (3/10 : ℚ) + -(6/100) ≠ 3/10
    norm_num

/-- C9 (confirmed; the base-class initialisation is modelled from the spec in
`initial_base_state`): on a freshly constructed helper, before any
`enable_probing`, the stored constraint set is `none`, so `plan_probing`
requests a Cartesian plan with no path constraints and a single waypoint, for
every current pose and displacement, with no failure path in the code. -/
theorem plan_probing_fresh_no_constraints (env : Env) (p : PoseMsg) (z : ℚ) :
    (plan_probing (init_helper env).2.1 p z).path_constraints = none
    ∧ (plan_probing (init_helper env).2.1 p z).waypoints.length = 1 :=
  ⟨rfl, rfl⟩

/-- C10 (confirmed): `enable_probing` applies its side effects
unconditionally — for every environment, in particular whenever the
hollow-add or solid-remove convergence waits time out and return false, the
post-state carries the path constraints, velocity scaling 0.01 and
acceleration scaling 0.1, and the corresponding service calls appear in its
trace before it returns. -/
theorem enable_probing_unconditional (env : Env) (s : HelperState) :
    (enable_probing env s).1.velocity_scaling = 1/100
    ∧ (enable_probing env s).1.accel_scaling = 1/10
    ∧ (enable_probing env s).1.cartesian_constraints = some (probing_constraints env)
    ∧ (enable_probing env s).1.path_constraints = some (probing_constraints env)
    ∧ SceneEvent.setPathConstraints ∈ (enable_probing env s).2
    ∧ SceneEvent.setMaxVelocityScaling (1/100) ∈ (enable_probing env s).2
    ∧ SceneEvent.setMaxAccelScaling (1/10) ∈ (enable_probing env s).2 := by
  refine ⟨rfl, rfl, rfl, rfl, ?_, ?_, ?_⟩ <;>
    simp [enable_probing, apply_constraints, add_hollow_cylinder, remove_cylinder,
      List.mem_append]

/-- C3 (amended): in `enable_probing`, the removal of the solid cylinder is
issued only after the hollow-cylinder convergence wait has COMPLETED, but not
only after it has succeeded: the wait's result r is discarded, and the
solid-remove call follows whether r is true or false. -/
theorem enable_probing_solid_remove_after_hollow_wait (env : Env) (s : HelperState) :
    ∃ (r : Bool) (pre post : List SceneEvent),
      (enable_probing env s).2
          = pre ++ SceneEvent.waitResult hollow_cylinder_name true r :: post
        ∧ SceneEvent.removeWorldObject cylinder_name ∉ pre
        ∧ SceneEvent.removeWorldObject cylinder_name ∈ post := by
  refine ⟨(wait_loop env.oracle hollow_cylinder_name true 4 (pollFuel 4) 0
      (apply_constraints env s).1.queryCount).1,
    SceneEvent.setPathConstraints :: SceneEvent.addMesh hollow_cylinder_name ::
      (wait_loop env.oracle hollow_cylinder_name true 4 (pollFuel 4) 0
        (apply_constraints env s).1.queryCount).2.2,
    (remove_cylinder env (add_hollow_cylinder env (apply_constraints env s).1).1).2.2
      ++ [SceneEvent.setMaxVelocityScaling (1/100), SceneEvent.setMaxAccelScaling (1/10)],
    ?_, ?_, ?_⟩
  · show ([SceneEvent.setPathConstraints]
        ++ (SceneEvent.addMesh hollow_cylinder_name ::
              ((wait_loop env.oracle hollow_cylinder_name true 4 (pollFuel 4) 0
                  (apply_constraints env s).1.queryCount).2.2
                ++ [SceneEvent.waitResult hollow_cylinder_name true
                      (wait_loop env.oracle hollow_cylinder_name true 4 (pollFuel 4) 0
                        (apply_constraints env s).1.queryCount).1]))
        ++ (remove_cylinder env (add_hollow_cylinder env (apply_constraints env s).1).1).2.2
        ++ [SceneEvent.setMaxVelocityScaling (1/100), SceneEvent.setMaxAccelScaling (1/10)])
      = _
    simp [List.append_assoc]
  · intro hmem
    rcases List.mem_cons.mp hmem with h | hmem'
    · exact SceneEvent.noConfusion h
    rcases List.mem_cons.mp hmem' with h | hmem''
    · exact SceneEvent.noConfusion h
    obtain ⟨k, n, he⟩ := wait_loop_trace_queries env.oracle hollow_cylinder_name true 4
      _ _ _ _ hmem''
    exact SceneEvent.noConfusion he
  · apply List.mem_append_left
    simp [remove_cylinder, wait_trace_eq, List.mem_append]

/-- C3 counterexample: on a scene that never reports the hollow cylinder, the
hollow-add confirmation never succeeds (no successful hollow wait result is
ever recorded), yet `enable_probing` still issues the solid-cylinder remove
call. -/
theorem enable_probing_removes_without_hollow_confirmation :
    SceneEvent.removeWorldObject cylinder_name
        ∈ (enable_probing envSolidOnly initial_base_state).2
    ∧ SceneEvent.waitResult hollow_cylinder_name true true
        ∉ (enable_probing envSolidOnly initial_base_state).2 := by
  decide

/-- C4 (amended): a second `enable_probing` without an intervening
`disable_probing` is not rejected — the helper tracks no probing state and
raises no InvalidTransition — and it silently re-applies the probing side
effects: the second call again issues the constraint application and ends
with scaling 0.01 / 0.1 and the constraints active. -/
theorem enable_probing_twice_not_rejected (env : Env) (s : HelperState) :
    (enable_probing env (enable_probing env s).1).1.velocity_scaling = 1/100
    ∧ (enable_probing env (enable_probing env s).1).1.accel_scaling = 1/10
    ∧ (enable_probing env (enable_probing env s).1).1.cartesian_constraints
        = some (probing_constraints env)
    ∧ SceneEvent.setPathConstraints ∈ (enable_probing env (enable_probing env s).1).2
    ∧ SceneEvent.setMaxVelocityScaling (1/100)
        ∈ (enable_probing env (enable_probing env s).1).2 := by
  refine ⟨rfl, rfl, rfl, ?_, ?_⟩ <;>
    simp [enable_probing, apply_constraints, add_hollow_cylinder, remove_cylinder,
      List.mem_append]

/-- C4 counterexample: on a concrete fast-converging scene, the second of two
back-to-back `enable_probing` calls issues the constraint application again —
the call is re-applied and no error of any kind is signalled. -/
theorem enable_probing_twice_counterexample :
    SceneEvent.setPathConstraints
      ∈ (enable_probing envFast (enable_probing envFast initial_base_state).1).2 := by
  decide

/-- C8 (amended): the value returned by `__add_cylinder` / `__remove_cylinder`
is exactly the result of their FINAL convergence wait (false on its timeout),
and no scene call follows that wait (waits never mutate the scene); however
`__remove_cylinder`'s initial wait is only a pre-check whose result is
discarded: the remove calls are issued after it regardless of its outcome, so
a timed-out initial wait neither fails the operation nor suppresses the
removal. -/
theorem add_remove_timeout_policy (env : Env) (s : HelperState) :
    ((add_cylinder env s).1 = (wait_for_state_update env s cylinder_name true 10).1
      ∧ (add_cylinder env s).2.2
          = SceneEvent.addCylinder cylinder_name
              :: (wait_for_state_update env s cylinder_name true 10).2.2)
    ∧ ((remove_cylinder env s).1
        = (wait_for_state_update env
            (wait_for_state_update env s cylinder_name true 4).2.1 cylinder_name false 4).1
      ∧ (remove_cylinder env s).2.2
          = (wait_for_state_update env s cylinder_name true 4).2.2
              ++ [SceneEvent.removeAttachedObject cylinder_name,
                  SceneEvent.removeWorldObject cylinder_name]
              ++ (wait_for_state_update env
                  (wait_for_state_update env s cylinder_name true 4).2.1
                  cylinder_name false 4).2.2)
    ∧ (∀ nm ex tt, ∀ ev ∈ (wait_for_state_update env s nm ex tt).2.2,
        isSceneMutation ev = false) :=
  ⟨⟨rfl, rfl⟩, ⟨rfl, rfl⟩, fun nm ex tt => wait_trace_no_mutation env s nm ex tt⟩

/-- C8 counterexample: on a scene that never reports the solid cylinder,
`__remove_cylinder`'s first convergence wait times out (returns false), yet
the remove calls are still issued after that failed wait and the operation
returns true (the final not-known wait succeeds at once) — against the claim
that a timed-out wait makes the operation return false with no further scene
calls. -/
theorem remove_cylinder_ignores_first_timeout :
    (wait_for_state_update envEmpty initial_base_state cylinder_name true 4).1 = false
    ∧ SceneEvent.removeWorldObject cylinder_name
        ∈ (remove_cylinder envEmpty initial_base_state).2.2
    ∧ (remove_cylinder envEmpty initial_base_state).1 = true := by
  decide
